import Mathlib

/-!
# Verification of the static restaurant-site generator

A shallow embedding, in Lean 4, of `generate_site.py`: the field normalizer
(`clean_text`), slug generator (`slugify`), record builder
(`read_restaurants`), HTML renderers (`build_card`, `build_detail`,
`build_page`) and the site writer (`generate_site`, `copy_styles`, `main`),
together with theorems checking the behaviour documented for the program.

Python strings are modelled as Lean `String` (a sequence of Unicode scalar
values, matching Python's sequence-of-code-points view for the repertoire
this program manipulates).  Python standard-library primitives used by the
source (`str.strip`, `str.splitlines`, `str.lower`, `re.sub` character
classes, `html.escape`, `unicodedata.normalize`) are modelled explicitly
below, each with a comment stating what it models.
-/

/-! ## Character classes of the Python standard library -/

/-- Models Python's notion of a whitespace character (`str.isspace`), the set
stripped by `str.strip()` with no argument and matched by the regular
expression class `\s` in Unicode (default) mode: the ASCII whitespace
characters together with the Unicode `White_Space` code points. -/
def pySpace (c : Char) : Bool :=
  c.toNat = 0x20 ∨ (0x9 ≤ c.toNat ∧ c.toNat ≤ 0xD) ∨ (0x1C ≤ c.toNat ∧ c.toNat ≤ 0x1F) ∨ c.toNat = 0x85 ∨
    c.toNat = 0xA0 ∨ c.toNat = 0x1680 ∨ (0x2000 ≤ c.toNat ∧ c.toNat ≤ 0x200A) ∨
    c.toNat = 0x2028 ∨ c.toNat = 0x2029 ∨ c.toNat = 0x202F ∨ c.toNat = 0x205F ∨
    c.toNat = 0x3000

/-- Models Python's regular-expression class `\w` in Unicode (default) mode:
word characters are the ASCII letters, digits and underscore together with
every other code point the Unicode database classifies as alphanumeric — in
particular the CJK Unified Ideographs, which this development needs.  The
table is restricted to the character repertoire this program can meet
(ASCII and the CJK blocks used by the dataset); all whitespace, punctuation
and symbol characters are correctly outside it. -/
def pyWord (c : Char) : Bool :=
  (0x30 ≤ c.toNat ∧ c.toNat ≤ 0x39) ∨ (0x41 ≤ c.toNat ∧ c.toNat ≤ 0x5A) ∨
    (0x61 ≤ c.toNat ∧ c.toNat ≤ 0x7A) ∨ c.toNat = 0x5F ∨
    (0x4E00 ≤ c.toNat ∧ c.toNat ≤ 0x9FFF) ∨ (0x3040 ≤ c.toNat ∧ c.toNat ≤ 0x30FF)

/-- Models Python's `str.lower` character-wise, over the ASCII range (the
only cased characters this development meets; all other code points are
left unchanged, as Python leaves uncased code points unchanged). -/
def pyLowerChar (c : Char) : Char :=
  if 0x41 ≤ c.toNat ∧ c.toNat ≤ 0x5A then Char.ofNat (c.toNat + 32) else c

/-- The Unicode line boundaries recognised by Python `str.splitlines`,
other than the two-character boundary `"\r\n"` which `pySplitlines`
handles separately. -/
def pyLineBreak (c : Char) : Bool :=
  c.toNat = 0xA ∨ c.toNat = 0xD ∨ c.toNat = 0xB ∨ c.toNat = 0xC ∨
    (0x1C ≤ c.toNat ∧ c.toNat ≤ 0x1E) ∨ c.toNat = 0x85 ∨ c.toNat = 0x2028 ∨
    c.toNat = 0x2029

/-! ## Python string primitives -/

/-- Strip, from both ends of a character list, the characters satisfying
`p`; models Python `str.strip` (with `p := pySpace` for the no-argument
form, and with an explicit character set for forms such as
`line.strip(" ·")` and `review_count.strip("()")`). -/
def pyStripList (p : Char → Bool) (l : List Char) : List Char :=
  ((l.dropWhile p).reverse.dropWhile p).reverse

/-- `str.strip` on strings: see `pyStripList`. -/
def pyStrip (p : Char → Bool) (s : String) : String :=
  ⟨pyStripList p s.data⟩

/-- Worker for `pySplitlines`: `acc` holds the current line reversed. -/
def pySplitlinesAux : List Char → List Char → List (List Char)
  | [], acc => if acc.isEmpty then [] else [acc.reverse]
  | '\r' :: '\n' :: rest, acc => acc.reverse :: pySplitlinesAux rest []
  | c :: rest, acc =>
    if pyLineBreak c then acc.reverse :: pySplitlinesAux rest []
    else pySplitlinesAux rest (c :: acc)

/-- Models Python `str.splitlines()`: split at every Unicode line boundary,
treating `"\r\n"` as a single boundary; a trailing boundary does not
produce a final empty line, and the empty string yields no lines. -/
def pySplitlines (s : String) : List String :=
  (pySplitlinesAux s.data []).map (fun l => ⟨l⟩)

/-- Decimal digit characters, as produced by Python's `str` on a
non-negative integer. -/
def pyDigitChar (d : Nat) : Char :=
  match d with
  | 0 => '0' | 1 => '1' | 2 => '2' | 3 => '3' | 4 => '4'
  | 5 => '5' | 6 => '6' | 7 => '7' | 8 => '8' | 9 => '9'
  | _ => '*'

/-- Worker for `pyNum`: the decimal digits of `n`, least significant
first, computed with explicit fuel (any `fuel ≥ n` is enough; see
`pyNumAux_eq_digits`). -/
def pyNumAux : Nat → Nat → List Char
  | 0, _ => []
  | _ + 1, 0 => []
  | fuel + 1, n + 1 => pyDigitChar ((n + 1) % 10) :: pyNumAux fuel ((n + 1) / 10)

/-- Models Python `str(n)` / f-string interpolation of a non-negative
integer: its decimal representation, most significant digit first. -/
def pyNum (n : Nat) : String :=
  if n = 0 then "0" else ⟨(pyNumAux n n).reverse⟩

/-! ## The field normalizer `clean_text` -/

/-- The character set of `line.strip(" ·")` in `clean_text`: the ASCII
space and the middle dot U+00B7. -/
def spaceOrMiddot (c : Char) : Bool := c = ' ' ∨ c = '·'

/-- `clean_text` from `generate_site.py`, transcribed line by line:

```python
def clean_text(value: str) -> str:
    value = (value or "").strip()
    if not value or value == "·":
        return ""
    lines = [line.strip(" ·") for line in value.splitlines() if line.strip(" ·")]
    if not lines:
        return ""
    text = lines[-1]
    if len(text) == 1 and ord(text) > 0xE000:
        return ""
    return text
```

The comprehension filters on the truthiness of the stripped line and
yields the stripped line, i.e. it maps `strip(" ·")` over the lines and
keeps the non-empty results; `cleanLines` names that list. -/
def cleanLines (value : String) : List String :=
  ((pySplitlines (pyStrip pySpace value)).map (pyStrip spaceOrMiddot)).filter
    (fun l => l ≠ "")

/-- `clean_text` itself: see `cleanLines` for the comprehension (the
stripped value that `cleanLines` splits is the `value` reassigned on the
function's first line). -/
def cleanText (value : String) : String :=
  let stripped := pyStrip pySpace value
  if stripped = "" ∨ stripped = "·" then ""
  else
    match (cleanLines value).getLast? with
    | none => ""
    | some text => if text.length = 1 ∧ 0xE000 < (text.get 0).toNat then "" else text

/-! ## The slug generator `slugify` -/

/-- Models Python `unicodedata.normalize("NFKD", ·)`: Unicode compatibility
decomposition, given character-wise.  The table covers the compatibility
characters relevant to this development; every character the program's
dataset examples use (ASCII, the middle dot, and the CJK Unified
Ideographs, all of which are NFKD-inert) decomposes to itself. -/
def nfkdChar (c : Char) : List Char :=
  match c with
  | 'ﬁ' => ['f', 'i']                -- U+FB01 LATIN SMALL LIGATURE FI
  | '²' => ['2']                      -- U+00B2 SUPERSCRIPT TWO
  | 'Ａ' => ['A']                     -- U+FF21 FULLWIDTH LATIN CAPITAL A
  | '　' => [' ']                     -- U+3000 IDEOGRAPHIC SPACE
  | '½' => ['1', '⁄', '2']           -- U+00BD VULGAR FRACTION ONE HALF
  | c => [c]

/-- `unicodedata.normalize("NFKD", ·)` on strings: see `nfkdChar`. -/
def nfkd (s : String) : String :=
  ⟨s.data.flatMap nfkdChar⟩

/-- Worker for `collapseRuns`; the flag records whether the previous
character belonged to a whitespace-or-underscore run (in which case the
run's hyphen has already been emitted). -/
def collapseRunsAux : Bool → List Char → List Char
  | _, [] => []
  | inRun, c :: rest =>
    if pySpace c ∨ c = '_' then
      if inRun then collapseRunsAux true rest
      else '-' :: collapseRunsAux true rest
    else c :: collapseRunsAux false rest

/-- Models `re.sub(r"[\s_]+", "-", ·)`: replace every maximal run of
whitespace or underscore characters by a single hyphen. -/
def collapseRuns (l : List Char) : List Char :=
  collapseRunsAux false l

/-- `slugify` from `generate_site.py`, transcribed line by line:

```python
def slugify(text: str) -> str:
    normalized = unicodedata.normalize("NFKD", text).strip().lower()
    collapsed = re.sub(r"[\s_]+", "-", normalized)
    safe = re.sub(r"[^\w\-]", "", collapsed)
    return safe or "restaurant"
```
-/
def slugify (text : String) : String :=
  let normalized : String :=
    ⟨(pyStripList pySpace (nfkd text).data).map pyLowerChar⟩
  let collapsed : List Char := collapseRuns normalized.data
  let safe : List Char := collapsed.filter (fun c => pyWord c ∨ c = '-')
  if safe.isEmpty then "restaurant" else ⟨safe⟩

/-- Models Python `sep.join(parts)`: the parts interleaved with the
separator. -/
def pyJoin (sep : String) : List String → String
  | [] => ""
  | [a] => a
  | a :: rest => a ++ sep ++ pyJoin sep rest

/-- Models Python string repetition `s * n` (as in `"../" * depth`). -/
def strRepeat (s : String) : Nat → String
  | 0 => ""
  | n + 1 => s ++ strRepeat s n

/-! ## The restaurant record and the record builder -/

/-- The `Restaurant` dataclass of `generate_site.py`. -/
structure Restaurant where
  slug : String
  name : String
  map_url : String
  rating : String
  review_count : String
  category : String
  address : String
  status : String
  hours : String
  image_url : String
  services : List String := []
  action_label : String := ""
  action_url : String := ""
  price : String := ""
  secondary_links : List (String × String) := []
deriving Repr, DecidableEq

/-- A raw CSV row as produced by `csv.DictReader`: an association of column
headers to cell values. -/
abbrev Row : Type := List (String × String)

/-- Models `row.get(key, "")` (and `row.get(key) or ""`, which coincides
with it when every stored value is a string): the value stored under `key`,
or the empty string when the key is absent. -/
def rowGet (row : Row) (key : String) : String :=
  match List.find? (fun kv => kv.1 = key) row with
  | some kv => kv.2
  | none => ""

/-- The candidate slug tried by the collision loop at suffix `counter`:
`f"{slug_base}-{counter}"`. -/
def slugCand (base : String) (counter : Nat) : String :=
  base ++ "-" ++ pyNum counter

/-- Worker for `pickSlug`, modelling the `while slug in used_slugs` loop
body from suffix `counter` on, with explicit fuel.  `used.length + 1` fuel
always suffices (`findSlug_not_mem`), because the candidates are pairwise
distinct, so the loop in the source terminates. -/
def findSlug (used : List String) (base : String) : Nat → Nat → String
  | _, 0 => ""
  | counter, fuel + 1 =>
    let cand := slugCand base counter
    if cand ∈ used then findSlug used base (counter + 1) fuel else cand

/-- The slug-collision loop of `read_restaurants`:

```python
slug = slug_base
counter = 2
while slug in used_slugs:
    slug = f"{slug_base}-{counter}"
    counter += 1
```
-/
def pickSlug (used : List String) (base : String) : String :=
  if base ∈ used then findSlug used base 2 (used.length + 1) else base

/-- The parenthesis characters stripped from a cleaned review count. -/
def parenChar (c : Char) : Bool := c = '(' ∨ c = ')'

/-- The name assigned to the row at 0-based position `index`:
`clean_text(row.get("qBF1Pd", "")) or f"餐廳 {index + 1}"`. -/
def recordName (index : Nat) (row : Row) : String :=
  let c := cleanText (rowGet row "qBF1Pd")
  if c = "" then "餐廳 " ++ pyNum (index + 1) else c

/-- One iteration of the row loop of `read_restaurants`: build the record
for `row` at 0-based position `index`, given the slugs `used` so far. -/
def mkRecord (index : Nat) (used : List String) (row : Row) : Restaurant :=
  let name := recordName index row
  let slug := pickSlug used (slugify name)
  let services :=
    (["ah5Ghc", "ah5Ghc (2)", "ah5Ghc (3)"].map
      (fun key => cleanText (rowGet row key))).filter (fun s => s ≠ "")
  let action_label := cleanText (rowGet row "J8zHNe")
  let action_url := pyStrip pySpace (rowGet row "A1zNzb href")
  let price := cleanText (rowGet row "AJB7ye (2)")
  let rc0 := cleanText (rowGet row "UY7F9")
  let review_count := if rc0 ≠ "" then pyStrip parenChar rc0 else rc0
  let alt_url := pyStrip pySpace (rowGet row "A1zNzb href (2)")
  let alt_label := cleanText (rowGet row "J8zHNe (2)")
  let secondary_links := if alt_url ≠ "" ∧ alt_label ≠ "" then [(alt_label, alt_url)] else []
  { slug := slug
    name := name
    map_url := pyStrip pySpace (rowGet row "hfpxzc href")
    rating := cleanText (rowGet row "MW4etd")
    review_count := review_count
    category := cleanText (rowGet row "W4Efsd")
    address := cleanText (rowGet row "W4Efsd (3)")
    status := cleanText (rowGet row "W4Efsd (4)")
    hours := cleanText (rowGet row "W4Efsd (5)")
    image_url := pyStrip pySpace (rowGet row "FQ2IWe src")
    services := services
    action_label := action_label
    action_url := action_url
    price := price
    secondary_links := secondary_links }

/-- Worker for `buildRecords`: the `for index, row in enumerate(reader)`
loop, carrying the running index and the `used_slugs` set (as the list of
slugs assigned so far, most recent first). -/
def buildRecordsAux (index : Nat) (used : List String) : List Row → List Restaurant
  | [] => []
  | row :: rest =>
    let r := mkRecord index used row
    r :: buildRecordsAux (index + 1) (r.slug :: used) rest

/-- The record-building loop of `read_restaurants`, over an explicit list
of parsed CSV rows. -/
def buildRecords (rows : List Row) : List Restaurant :=
  buildRecordsAux 0 [] rows

/-! ## HTML escaping -/

/-- The entity replacement performed by Python `html.escape(s, quote=True)`
on one character. -/
def escChar (c : Char) : List Char :=
  if c = '&' then "&amp;".data
  else if c = '<' then "&lt;".data
  else if c = '>' then "&gt;".data
  else if c = '"' then "&quot;".data
  else if c = '\'' then "&#x27;".data
  else [c]

/-- `html_escape` from `generate_site.py`, i.e. Python
`html.escape(text, quote=True)`.  The source performs the five
replacements sequentially, ampersand first; since none of the replacement
texts contains a character that a later replacement rewrites (the
ampersands they introduce are produced after the ampersand pass), the
sequential replacement coincides with this character-wise map. -/
def htmlEscape (text : String) : String :=
  ⟨text.data.flatMap escChar⟩

/-! ## The page renderers -/

/-- `build_card` from `generate_site.py`, transcribed with the f-string
literals written out (Python truthiness of a string is `≠ ""`). -/
def buildCard (restaurant : Restaurant) : String :=
  let price :=
    if restaurant.price ≠ "" then
      "<span class='price'>" ++ htmlEscape restaurant.price ++ "</span>"
    else ""
  let rating :=
    if restaurant.rating ≠ "" then
      "<div class='rating'>⭐ " ++ htmlEscape restaurant.rating ++
        " <span class='reviews'>(" ++ htmlEscape restaurant.review_count ++ ")</span></div>"
    else ""
  let image :=
    if restaurant.image_url ≠ "" then
      "<div class='card-image'><img src='" ++ htmlEscape restaurant.image_url ++
        "' alt='" ++ htmlEscape restaurant.name ++ "'></div>"
    else "<div class='card-image placeholder'>沒有圖片</div>"
  "\n    <article class='card'>\n      <a class='card-link' href='restaurants/" ++
    restaurant.slug ++ "/'>\n        " ++ image ++
    "\n        <div class='card-body'>\n          <h2>" ++ htmlEscape restaurant.name ++
    "</h2>\n          <p class='meta'>\n            " ++ rating ++
    "\n            <span class='category'>" ++ htmlEscape restaurant.category ++
    "</span>\n            " ++ price ++
    "\n          </p>\n          <p class='status'>" ++ htmlEscape restaurant.status ++
    " " ++ htmlEscape restaurant.hours ++
    "</p>\n          <p class='address'>" ++ htmlEscape restaurant.address ++
    "</p>\n        </div>\n      </a>\n    </article>\n    "

/-- `build_detail` from `generate_site.py`, transcribed with the f-string
literals written out. -/
def buildDetail (restaurant : Restaurant) : String :=
  let services_html :=
    pyJoin "" (restaurant.services.map (fun service =>
      "<li><span class='bullet'>•</span> " ++ htmlEscape service ++ "</li>"))
  let services_block :=
    if services_html ≠ "" then "<ul class='services'>" ++ services_html ++ "</ul>"
    else "<p class='muted'>尚未提供服務資訊</p>"
  let actions : List String :=
    (if restaurant.action_label ≠ "" ∧ restaurant.action_url ≠ "" then
      ["<a class='button primary' href='" ++ htmlEscape restaurant.action_url ++
        "' target='_blank' rel='noopener'>" ++ htmlEscape restaurant.action_label ++ "</a>"]
    else []) ++
    (if restaurant.map_url ≠ "" then
      ["<a class='button secondary' href='" ++ htmlEscape restaurant.map_url ++
        "' target='_blank' rel='noopener'>查看地圖</a>"]
    else []) ++
    restaurant.secondary_links.map (fun lu =>
      "<a class='button secondary' href='" ++ htmlEscape lu.2 ++
        "' target='_blank' rel='noopener'>" ++ htmlEscape lu.1 ++ "</a>")
  let action_block :=
    if actions ≠ [] then pyJoin "" actions
    else "<p class='muted'>沒有可用的外部連結</p>"
  let hero :=
    if restaurant.image_url ≠ "" then
      "<img class='hero' src='" ++ htmlEscape restaurant.image_url ++
        "' alt='" ++ htmlEscape restaurant.name ++ "'>"
    else "<div class='hero placeholder'>沒有提供圖片</div>"
  let price_block :=
    if restaurant.price ≠ "" then
      "<span class='pill'>" ++ htmlEscape restaurant.price ++ "</span>"
    else ""
  let value_highlights : List String :=
    (if restaurant.rating ≠ "" then
      ["<li><strong>" ++ htmlEscape restaurant.rating ++ " ★</strong> · " ++
        htmlEscape (if restaurant.review_count ≠ "" then restaurant.review_count else "近期評論") ++
        " 則真實口碑，適合放大曝光。</li>"]
    else []) ++
    (if restaurant.category ≠ "" then
      ["<li>依照「" ++ htmlEscape restaurant.category ++ "」標籤，鎖定對味客群，減少無效廣告浪費。</li>"]
    else []) ++
    (if restaurant.services ≠ [] then
      ["<li>用「" ++
        pyJoin "、" ((restaurant.services.take 3).map htmlEscape) ++
        "」等服務情境，客製化導購腳本，提升轉單率。</li>"]
    else []) ++
    (if restaurant.price ≠ "" then
      ["<li>以客單 " ++ htmlEscape restaurant.price ++ " 為目標，推薦適合的再行銷與回訪提醒節奏。</li>"]
    else [])
  let value_highlights :=
    if value_highlights = [] then
      ["<li>專人協助設定行銷流程，快速上線導流與留客工具。</li>"]
    else value_highlights
  let growth_section :=
    "\n      <section class='promo'>\n        <div class='promo-card'>\n          <div class='promo-text'>\n            <p class='eyebrow'>合作提案</p>\n            <h2>為 " ++
    htmlEscape restaurant.name ++
    " 打造的營運成長方案</h2>\n            <p class='muted'>把門市資訊轉換成吸引人的故事：用評論、服務型態與價格帶，為你量身設計廣告素材、回訪訊息與會員培育流程。</p>\n            <ul class='promo-list'>" ++
    pyJoin "" value_highlights ++
    "</ul>\n            <div class='promo-actions'>\n              <a class='button primary' href='mailto:hello@example.com?subject=" ++
    htmlEscape restaurant.name ++
    "%20合作諮詢'>預約 30 分鐘諮詢</a>\n              <a class='button secondary' href='" ++
    htmlEscape (if restaurant.map_url ≠ "" then restaurant.map_url else "../../index.html") ++
    "' target='_blank' rel='noopener'>查看門市定位</a>\n            </div>\n          </div>\n          <div class='promo-panel'>\n            <div class='stat'>\n              <div class='stat-label'>招牌亮點</div>\n              <div class='stat-value'>" ++
    htmlEscape (if restaurant.category ≠ "" then restaurant.category else "人氣餐廳") ++
    "</div>\n              <p class='stat-note'>我們會根據熱門品項與客群關鍵字，產出投放文案與著陸頁 A/B 測試。</p>\n            </div>\n            <div class='stat'>\n              <div class='stat-label'>口碑力</div>\n              <div class='stat-value'>" ++
    htmlEscape (if restaurant.review_count ≠ "" then restaurant.review_count else "新開店") ++
    "</div>\n              <p class='stat-note'>將評論轉成社群推薦語，並建立「到店後」滿意度追蹤流程。</p>\n            </div>\n            <div class='stat'>\n              <div class='stat-label'>營運服務</div>\n              <div class='stat-value'>" ++
    htmlEscape
      (if pyJoin "、" restaurant.services ≠ "" then
        pyJoin "、" restaurant.services
      else "彈性體驗") ++
    "</div>\n              <p class='stat-note'>針對營業時段與服務模式自動提醒，減少空檔、放大尖峰營收。</p>\n            </div>\n          </div>\n        </div>\n      </section>\n    "
  "\n    <main class='detail'>\n      <a class='back-link' href='../../index.html'>← 回到餐廳列表</a>\n      <header>\n        <h1>" ++
    htmlEscape restaurant.name ++
    "</h1>\n        <div class='tags'>\n          <span class='pill'>" ++
    htmlEscape restaurant.category ++
    "</span>\n          " ++ price_block ++
    "\n        </div>\n        <div class='summary'>\n          <div class='rating'>⭐ " ++
    htmlEscape restaurant.rating ++
    " <span class='reviews'>(" ++ htmlEscape restaurant.review_count ++
    ")</span></div>\n          <div class='status'>" ++
    htmlEscape restaurant.status ++ " " ++ htmlEscape restaurant.hours ++
    "</div>\n          <div class='address'>" ++ htmlEscape restaurant.address ++
    "</div>\n        </div>\n      </header>\n      " ++ hero ++
    "\n      " ++ growth_section ++
    "\n      <section>\n        <h2>服務</h2>\n        " ++ services_block ++
    "\n      </section>\n      <section>\n        <h2>連結</h2>\n        <div class='actions'>\n          " ++
    action_block ++
    "\n        </div>\n      </section>\n    </main>\n    "

/-- `build_page` from `generate_site.py`: wrap a body in the document
shell, escaping the title; `"../" * depth` computes the stylesheet path
up-segments. -/
def buildPage (body : String) (title : String) (depth : Nat) : String :=
  let pathUp := strRepeat "../" depth
  "<!doctype html>\n<html lang='zh-Hant'>\n  <head>\n    <meta charset='utf-8'>\n    <meta name='viewport' content='width=device-width, initial-scale=1'>\n    <title>" ++
    htmlEscape title ++
    "</title>\n    <link rel='stylesheet' href='" ++ pathUp ++
    "assets/style.css'>\n  </head>\n  <body>\n    <div class='page'>" ++ body ++
    "</div>\n  </body>\n</html>\n"

/-! ## The site writer -/

/-- The filesystem, modelled as the contents of each file path together
with the set of directories that exist.  Paths are the path strings of the
source, taken relative to the program directory (`ROOT`). -/
structure FS where
  files : String → Option String
  dirs : String → Bool

/-- `CSV_PATH = ROOT / "restaurant_119HW.csv"`, relative to `ROOT`. -/
def csvPath : String := "restaurant_119HW.csv"

/-- `DOCS_DIR = ROOT / "docs"`. -/
def docsDir : String := "docs"

/-- `ASSETS_DIR = DOCS_DIR / "assets"`. -/
def assetsDir : String := "docs/assets"

/-- `RESTAURANTS_DIR = DOCS_DIR / "restaurants"`. -/
def restaurantsDir : String := "docs/restaurants"

/-- The stylesheet path `ASSETS_DIR / "style.css"`. -/
def stylePath : String := "docs/assets/style.css"

/-- The index page path `DOCS_DIR / "index.html"`. -/
def indexPath : String := "docs/index.html"

/-- The detail page path `RESTAURANTS_DIR / slug / "index.html"`. -/
def detailPath (slug : String) : String :=
  "docs/restaurants/" ++ slug ++ "/index.html"

/-- The directory `p` together with its ancestors, as created by
`Path.mkdir(parents=True, exist_ok=True)`. -/
def pathAncestors (p : String) : List String :=
  let parts := p.splitOn "/"
  (List.range parts.length).map (fun i => String.intercalate "/" (parts.take (i + 1)))

/-- `dir.mkdir(parents=True, exist_ok=True)`: mark `dir` and its ancestors
as existing. -/
def mkdirParents (fs : FS) (dir : String) : FS :=
  { fs with dirs := fun q => if q ∈ pathAncestors dir then true else fs.dirs q }

/-- The parent directory of a path (`path.parent`). -/
def pathParent (p : String) : String :=
  String.intercalate "/" ((p.splitOn "/").dropLast)

/-- `write_file` from `generate_site.py`: create the parent directories,
then write `content` at `p`. -/
def writeFile (fs : FS) (p : String) (content : String) : FS :=
  let fs := mkdirParents fs (pathParent p)
  { fs with files := fun q => if q = p then some content else fs.files q }

/-- The static stylesheet written by `copy_styles` (its exact text, from
the source, with brace characters written as escapes). -/
def styleCSS : String :=
  "
:root \x7b
  --bg: #f6f8fb;
  --card: #ffffff;
  --ink: #111827;
  --muted: #6b7280;
  --accent: #2563eb;
  --pill: #e5e7eb;
  --border: #e5e7eb;
  --shadow: 0 10px 40px rgba(17, 24, 39, 0.08);
  --radius: 16px;
  font-family: \"Noto Sans TC\", \"Inter\", system-ui, -apple-system, sans-serif;
\x7d

* \x7b box-sizing: border-box; \x7d

body \x7b
  margin: 0;
  padding: 0;
  background: var(--bg);
  color: var(--ink);
\x7d

.page \x7b
  max-width: 1200px;
  margin: 0 auto;
  padding: 24px 20px 64px;
\x7d

h1, h2 \x7b
  margin: 0 0 8px;
\x7d

.hero-header \x7b
  text-align: center;
  margin-bottom: 24px;
\x7d

.hero-header p \x7b
  margin: 0;
  color: var(--muted);
\x7d

.grid \x7b
  display: grid;
  grid-template-columns: repeat(auto-fill, minmax(280px, 1fr));
  gap: 20px;
\x7d

.card \x7b
  background: var(--card);
  border-radius: var(--radius);
  overflow: hidden;
  box-shadow: var(--shadow);
  transition: transform 150ms ease, box-shadow 150ms ease;
\x7d

.card:hover \x7b
  transform: translateY(-4px);
  box-shadow: 0 16px 50px rgba(17, 24, 39, 0.12);
\x7d

.card-link \x7b
  color: inherit;
  text-decoration: none;
  display: block;
  height: 100%;
\x7d

.card-image \x7b
  height: 160px;
  background: var(--pill);
  display: flex;
  align-items: center;
  justify-content: center;
\x7d

.card-image img, .hero \x7b
  width: 100%;
  height: 100%;
  object-fit: cover;
  display: block;
\x7d

.card-image.placeholder \x7b
  color: var(--muted);
  font-size: 14px;
\x7d

.card-body \x7b
  padding: 16px 16px 20px;
\x7d

.card-body h2 \x7b
  font-size: 18px;
  margin-bottom: 8px;
\x7d

.meta \x7b
  display: flex;
  flex-wrap: wrap;
  gap: 8px;
  align-items: center;
  color: var(--muted);
  font-size: 14px;
\x7d

.rating \x7b
  font-weight: 600;
  color: #f59e0b;
\x7d

.reviews \x7b
  color: var(--muted);
  margin-left: 4px;
\x7d

.category, .price, .pill \x7b
  background: var(--pill);
  border-radius: 999px;
  padding: 4px 10px;
\x7d

.status \x7b
  color: var(--ink);
  margin: 8px 0 4px;
\x7d

.address \x7b
  color: var(--muted);
  font-size: 14px;
  margin: 0;
\x7d

.detail header \x7b
  margin-bottom: 12px;
\x7d

.detail .summary \x7b
  display: grid;
  gap: 6px;
  color: var(--muted);
\x7d

.detail .hero \x7b
  height: 340px;
  border-radius: var(--radius);
  box-shadow: var(--shadow);
  margin: 16px 0 24px;
\x7d

.detail .hero.placeholder \x7b
  background: var(--pill);
  color: var(--muted);
  display: flex;
  align-items: center;
  justify-content: center;
  font-size: 14px;
  height: 200px;
\x7d

.services \x7b
  list-style: none;
  padding: 0;
  margin: 0;
  display: grid;
  gap: 8px;
\x7d

.services .bullet \x7b
  color: var(--accent);
  margin-right: 6px;
\x7d

.actions \x7b
  display: flex;
  flex-wrap: wrap;
  gap: 10px;
\x7d

.button \x7b
  display: inline-flex;
  align-items: center;
  justify-content: center;
  padding: 10px 14px;
  border-radius: 10px;
  text-decoration: none;
  font-weight: 600;
  transition: transform 120ms ease, box-shadow 120ms ease;
\x7d

.button.primary \x7b
  background: var(--accent);
  color: white;
  box-shadow: 0 6px 16px rgba(37, 99, 235, 0.24);
\x7d

.button.secondary \x7b
  background: var(--card);
  border: 1px solid var(--border);
  color: var(--ink);
\x7d

.button:hover \x7b
  transform: translateY(-2px);
\x7d

.muted \x7b
  color: var(--muted);
\x7d

.tags \x7b
  display: flex;
  gap: 8px;
  margin-bottom: 8px;
\x7d

.pill \x7b
  color: var(--ink);
  display: inline-flex;
  align-items: center;
\x7d

.back-link \x7b
  color: var(--accent);
  text-decoration: none;
  font-weight: 600;
  display: inline-block;
  margin-bottom: 12px;
\x7d

@media (max-width: 640px) \x7b
  .grid \x7b
    grid-template-columns: 1fr;
  \x7d

  .detail .hero \x7b
    height: 220px;
  \x7d
\x7d

"

/-- `copy_styles` from `generate_site.py`: write the static stylesheet,
unless the file already exists. -/
def copyStyles (fs : FS) : FS :=
  match fs.files stylePath with
  | some _ => fs
  | none => { fs with files := fun q => if q = stylePath then some styleCSS else fs.files q }

/-- `generate_site` from `generate_site.py`: create the output directories,
write the index page, write one detail page per record, then
`copy_styles`. -/
def generateSite (restaurants : List Restaurant) (fs : FS) : FS :=
  let fs := mkdirParents fs assetsDir
  let fs := mkdirParents fs docsDir
  let fs := mkdirParents fs restaurantsDir
  let cards := restaurants.map buildCard
  let index_body :=
    "\n      <header class='hero-header'>\n        <h1>餐廳清單</h1>\n        <p>共有 " ++
      pyNum cards.length ++
      " 間餐廳，每一間都有自己的獨立頁面。</p>\n      </header>\n      <section class='grid'>\n        " ++
      pyJoin "" cards ++ "\n      </section>\n    "
  let index_page := buildPage index_body "餐廳列表" 0
  let fs := writeFile fs indexPath index_page
  let fs := restaurants.foldl
    (fun f r => writeFile f (detailPath r.slug) (buildPage (buildDetail r) r.name 2)) fs
  copyStyles fs

/-- Modelled from Python `csv.DictReader` over a file opened with
`encoding="utf-8-sig"`: drop a leading byte-order mark, read the first
line as the header, and associate each later non-empty line's
comma-separated cells with the header keys (rows shorter than the header
simply lack the trailing keys; empty rows are skipped).  Quoted fields are
not modelled: no claim of this development depends on them and the
dataset's behaviour is exercised through explicit row lists. -/
def parseCSV (content : String) : List Row :=
  let content := if content.startsWith "\uFEFF" then content.drop 1 else content
  match pySplitlines content with
  | [] => []
  | header :: rest =>
    let keys := header.splitOn ","
    ((rest.map (fun line =>
        if line = "" then ([] : List String) else line.splitOn ",")).filter
      (fun r => r ≠ [])).map (fun cells => keys.zip cells)

/-- `read_restaurants` from `generate_site.py`: raise
`FileNotFoundError(f"Unable to find data file at \x7bCSV_PATH\x7d")` when the
CSV file is missing, otherwise build the records from the parsed rows. -/
def readRestaurants (fs : FS) : Except String (List Restaurant) :=
  match fs.files csvPath with
  | none => Except.error ("Unable to find data file at " ++ csvPath)
  | some content => Except.ok (buildRecords (parseCSV content))

/-- `main` from `generate_site.py`: the resulting filesystem, paired with
the record count on success or the fatal error message.  An uncaught
`FileNotFoundError` aborts the run before `generate_site` is reached, so
the filesystem is returned unchanged in that case. -/
def mainRun (fs : FS) : FS × Except String Nat :=
  match readRestaurants fs with
  | Except.error e => (fs, Except.error e)
  | Except.ok rs => (generateSite rs fs, Except.ok rs.length)

/-! ## Specification-side definitions

The definitions in this section are written from the specification's words,
to be compared with the transcriptions above; they are not transcriptions
of the source. -/

/-- Written from the spec's words for the field normalizer: the whole value
is trimmed of surrounding whitespace, split into lines, each line is
trimmed of surrounding space and middle-dot characters, lines that become
empty are discarded, and the last remaining line is the result (no lines
remaining gives the empty result), except that a result of exactly one
character with code point above 0xE000 is suppressed to empty. -/
def cleanSpecFn (value : String) : String :=
  let lines := ((pySplitlines (pyStrip pySpace value)).map (pyStrip spaceOrMiddot)).filter
    (fun l => l ≠ "")
  match lines.getLast? with
  | none => ""
  | some text => if text.length = 1 ∧ 0xE000 < (text.get 0).toNat then "" else text

/-- Written from the spec's words for the escaping discipline: the record
with every text field HTML-escaped.  The slug is left untouched: the source
interpolates it raw (see the counterexample to the original claim). -/
def escapeRecord (r : Restaurant) : Restaurant :=
  { slug := r.slug
    name := htmlEscape r.name
    map_url := htmlEscape r.map_url
    rating := htmlEscape r.rating
    review_count := htmlEscape r.review_count
    category := htmlEscape r.category
    address := htmlEscape r.address
    status := htmlEscape r.status
    hours := htmlEscape r.hours
    image_url := htmlEscape r.image_url
    services := r.services.map htmlEscape
    action_label := htmlEscape r.action_label
    action_url := htmlEscape r.action_url
    price := htmlEscape r.price
    secondary_links := r.secondary_links.map (fun lu => (htmlEscape lu.1, htmlEscape lu.2)) }

/-- Written from the spec's words: `build_card` with every interpolation
taken verbatim (no escaping).  `build_card` itself must coincide with this
template applied to the escaped record. -/
def buildCardRaw (restaurant : Restaurant) : String :=
  let price :=
    if restaurant.price ≠ "" then
      "<span class='price'>" ++ restaurant.price ++ "</span>"
    else ""
  let rating :=
    if restaurant.rating ≠ "" then
      "<div class='rating'>⭐ " ++ restaurant.rating ++
        " <span class='reviews'>(" ++ restaurant.review_count ++ ")</span></div>"
    else ""
  let image :=
    if restaurant.image_url ≠ "" then
      "<div class='card-image'><img src='" ++ restaurant.image_url ++
        "' alt='" ++ restaurant.name ++ "'></div>"
    else "<div class='card-image placeholder'>沒有圖片</div>"
  "\n    <article class='card'>\n      <a class='card-link' href='restaurants/" ++
    restaurant.slug ++ "/'>\n        " ++ image ++
    "\n        <div class='card-body'>\n          <h2>" ++ restaurant.name ++
    "</h2>\n          <p class='meta'>\n            " ++ rating ++
    "\n            <span class='category'>" ++ restaurant.category ++
    "</span>\n            " ++ price ++
    "\n          </p>\n          <p class='status'>" ++ restaurant.status ++
    " " ++ restaurant.hours ++
    "</p>\n          <p class='address'>" ++ restaurant.address ++
    "</p>\n        </div>\n      </a>\n    </article>\n    "

/-- Written from the spec's words: `build_detail` with every interpolation
taken verbatim (no escaping).  `build_detail` itself must coincide with
this template applied to the escaped record. -/
def buildDetailRaw (restaurant : Restaurant) : String :=
  let services_html :=
    pyJoin "" (restaurant.services.map (fun service =>
      "<li><span class='bullet'>•</span> " ++ service ++ "</li>"))
  let services_block :=
    if services_html ≠ "" then "<ul class='services'>" ++ services_html ++ "</ul>"
    else "<p class='muted'>尚未提供服務資訊</p>"
  let actions : List String :=
    (if restaurant.action_label ≠ "" ∧ restaurant.action_url ≠ "" then
      ["<a class='button primary' href='" ++ restaurant.action_url ++
        "' target='_blank' rel='noopener'>" ++ restaurant.action_label ++ "</a>"]
    else []) ++
    (if restaurant.map_url ≠ "" then
      ["<a class='button secondary' href='" ++ restaurant.map_url ++
        "' target='_blank' rel='noopener'>查看地圖</a>"]
    else []) ++
    restaurant.secondary_links.map (fun lu =>
      "<a class='button secondary' href='" ++ lu.2 ++
        "' target='_blank' rel='noopener'>" ++ lu.1 ++ "</a>")
  let action_block :=
    if actions ≠ [] then pyJoin "" actions
    else "<p class='muted'>沒有可用的外部連結</p>"
  let hero :=
    if restaurant.image_url ≠ "" then
      "<img class='hero' src='" ++ restaurant.image_url ++
        "' alt='" ++ restaurant.name ++ "'>"
    else "<div class='hero placeholder'>沒有提供圖片</div>"
  let price_block :=
    if restaurant.price ≠ "" then
      "<span class='pill'>" ++ restaurant.price ++ "</span>"
    else ""
  let value_highlights : List String :=
    (if restaurant.rating ≠ "" then
      ["<li><strong>" ++ restaurant.rating ++ " ★</strong> · " ++
        (if restaurant.review_count ≠ "" then restaurant.review_count else "近期評論") ++
        " 則真實口碑，適合放大曝光。</li>"]
    else []) ++
    (if restaurant.category ≠ "" then
      ["<li>依照「" ++ restaurant.category ++ "」標籤，鎖定對味客群，減少無效廣告浪費。</li>"]
    else []) ++
    (if restaurant.services ≠ [] then
      ["<li>用「" ++ pyJoin "、" (restaurant.services.take 3) ++
        "」等服務情境，客製化導購腳本，提升轉單率。</li>"]
    else []) ++
    (if restaurant.price ≠ "" then
      ["<li>以客單 " ++ restaurant.price ++ " 為目標，推薦適合的再行銷與回訪提醒節奏。</li>"]
    else [])
  let value_highlights :=
    if value_highlights = [] then
      ["<li>專人協助設定行銷流程，快速上線導流與留客工具。</li>"]
    else value_highlights
  let growth_section :=
    "\n      <section class='promo'>\n        <div class='promo-card'>\n          <div class='promo-text'>\n            <p class='eyebrow'>合作提案</p>\n            <h2>為 " ++
    restaurant.name ++
    " 打造的營運成長方案</h2>\n            <p class='muted'>把門市資訊轉換成吸引人的故事：用評論、服務型態與價格帶，為你量身設計廣告素材、回訪訊息與會員培育流程。</p>\n            <ul class='promo-list'>" ++
    pyJoin "" value_highlights ++
    "</ul>\n            <div class='promo-actions'>\n              <a class='button primary' href='mailto:hello@example.com?subject=" ++
    restaurant.name ++
    "%20合作諮詢'>預約 30 分鐘諮詢</a>\n              <a class='button secondary' href='" ++
    (if restaurant.map_url ≠ "" then restaurant.map_url else "../../index.html") ++
    "' target='_blank' rel='noopener'>查看門市定位</a>\n            </div>\n          </div>\n          <div class='promo-panel'>\n            <div class='stat'>\n              <div class='stat-label'>招牌亮點</div>\n              <div class='stat-value'>" ++
    (if restaurant.category ≠ "" then restaurant.category else "人氣餐廳") ++
    "</div>\n              <p class='stat-note'>我們會根據熱門品項與客群關鍵字，產出投放文案與著陸頁 A/B 測試。</p>\n            </div>\n            <div class='stat'>\n              <div class='stat-label'>口碑力</div>\n              <div class='stat-value'>" ++
    (if restaurant.review_count ≠ "" then restaurant.review_count else "新開店") ++
    "</div>\n              <p class='stat-note'>將評論轉成社群推薦語，並建立「到店後」滿意度追蹤流程。</p>\n            </div>\n            <div class='stat'>\n              <div class='stat-label'>營運服務</div>\n              <div class='stat-value'>" ++
    (if pyJoin "、" restaurant.services ≠ "" then pyJoin "、" restaurant.services
      else "彈性體驗") ++
    "</div>\n              <p class='stat-note'>針對營業時段與服務模式自動提醒，減少空檔、放大尖峰營收。</p>\n            </div>\n          </div>\n        </div>\n      </section>\n    "
  "\n    <main class='detail'>\n      <a class='back-link' href='../../index.html'>← 回到餐廳列表</a>\n      <header>\n        <h1>" ++
    restaurant.name ++
    "</h1>\n        <div class='tags'>\n          <span class='pill'>" ++
    restaurant.category ++
    "</span>\n          " ++ price_block ++
    "\n        </div>\n        <div class='summary'>\n          <div class='rating'>⭐ " ++
    restaurant.rating ++
    " <span class='reviews'>(" ++ restaurant.review_count ++
    ")</span></div>\n          <div class='status'>" ++
    restaurant.status ++ " " ++ restaurant.hours ++
    "</div>\n          <div class='address'>" ++ restaurant.address ++
    "</div>\n        </div>\n      </header>\n      " ++ hero ++
    "\n      " ++ growth_section ++
    "\n      <section>\n        <h2>服務</h2>\n        " ++ services_block ++
    "\n      </section>\n      <section>\n        <h2>連結</h2>\n        <div class='actions'>\n          " ++
    action_block ++
    "\n        </div>\n      </section>\n    </main>\n    "

/-- Does the list start with the tail of one of the five HTML entities the
escaper emits?  Used by `entityClean` just after an ampersand. -/
def entityTail (rest : List Char) : Bool :=
  "amp;".data.isPrefixOf rest ∨ "lt;".data.isPrefixOf rest ∨
    "gt;".data.isPrefixOf rest ∨ "quot;".data.isPrefixOf rest ∨
    "#x27;".data.isPrefixOf rest

/-- Written from the spec's words for "no raw `<`, `>`, `&`": the text
contains no `<` or `>` at all, and every `&` begins one of the five
entities the escaper can produce. -/
def entityClean : List Char → Bool
  | [] => true
  | c :: rest =>
    if c = '<' ∨ c = '>' then false
    else if c = '&' then entityTail rest && entityClean rest
    else entityClean rest

/-- Boolean substring search (used to state that a fragment does or does
not contain a given piece of text). -/
def hasSub (needle : List Char) : List Char → Bool
  | [] => needle.isEmpty
  | c :: rest => needle.isPrefixOf (c :: rest) || hasSub needle rest


/-! ## Basic lemmas about the string primitives -/

theorem string_mk_data (l : List Char) : (String.mk l).data = l := rfl

theorem htmlEscape_data (s : String) :
    (htmlEscape s).data = s.data.flatMap escChar := rfl

theorem escChar_ne_nil (c : Char) : escChar c ≠ [] := by
  unfold escChar
  split <;> try simp
  split <;> try simp
  split <;> try simp
  split <;> try simp
  split <;> simp

theorem htmlEscape_eq_empty_iff (s : String) : htmlEscape s = "" ↔ s = "" := by
  rw [String.ext_iff, String.ext_iff, htmlEscape_data]
  show s.data.flatMap escChar = [] ↔ s.data = []
  rw [List.flatMap_eq_nil_iff]
  constructor
  · intro h
    cases hd : s.data with
    | nil => rfl
    | cons c rest => exact absurd (h c (by rw [hd]; exact List.mem_cons_self c rest)) (escChar_ne_nil c)
  · intro h
    rw [h]
    intro x hx
    cases hx

theorem htmlEscape_ne_empty_iff (s : String) : (htmlEscape s ≠ "") = (s ≠ "") := by
  simp [htmlEscape_eq_empty_iff]

theorem htmlEscape_append (a b : String) :
    htmlEscape (a ++ b) = htmlEscape a ++ htmlEscape b := by
  apply String.ext
  simp [htmlEscape_data]

theorem pyJoin_map_htmlEscape (sep : String) (hsep : htmlEscape sep = sep) :
    ∀ l : List String, pyJoin sep (l.map htmlEscape) = htmlEscape (pyJoin sep l)
  | [] => rfl
  | [a] => rfl
  | a :: b :: t => by
    show htmlEscape a ++ sep ++ pyJoin sep ((b :: t).map htmlEscape) = _
    rw [pyJoin_map_htmlEscape sep hsep (b :: t)]
    show _ = htmlEscape (a ++ sep ++ pyJoin sep (b :: t))
    rw [htmlEscape_append, htmlEscape_append, hsep]

/-! ## Decimal representations are injective -/

theorem charOfNat_toNat {n : Nat} (h : n < 0xD800) : (Char.ofNat n).toNat = n := by
  rw [Char.ofNat, dif_pos (Or.inl h)]
  rfl

theorem pyLowerChar_not_upper (c : Char) :
    ¬(0x41 ≤ (pyLowerChar c).toNat ∧ (pyLowerChar c).toNat ≤ 0x5A) := by
  unfold pyLowerChar
  split
  · next h =>
    rw [charOfNat_toNat (by omega)]
    omega
  · next h => exact h

theorem pyNumAux_eq_digits : ∀ (fuel n : Nat), n ≤ fuel →
    pyNumAux fuel n = (Nat.digits 10 n).map pyDigitChar := by
  intro fuel
  induction fuel with
  | zero =>
    intro n h
    have : n = 0 := Nat.le_zero.mp h
    subst this
    simp [pyNumAux]
  | succ f ih =>
    intro n h
    cases n with
    | zero => simp [pyNumAux]
    | succ m =>
      rw [Nat.digits_def' (by norm_num : (1:Nat) < 10) (Nat.succ_pos m)]
      show pyDigitChar ((m + 1) % 10) :: pyNumAux f ((m + 1) / 10) = _
      rw [List.map_cons, ih ((m + 1) / 10) (by
        have : (m + 1) / 10 < m + 1 := Nat.div_lt_self (Nat.succ_pos m) (by norm_num)
        omega)]

theorem pyDigitChar_inj : ∀ a < 10, ∀ b < 10, pyDigitChar a = pyDigitChar b → a = b := by
  decide

theorem map_pyDigitChar_inj : ∀ (l1 l2 : List Nat), (∀ d ∈ l1, d < 10) → (∀ d ∈ l2, d < 10) →
    l1.map pyDigitChar = l2.map pyDigitChar → l1 = l2
  | [], [], _, _, _ => rfl
  | [], _ :: _, _, _, h => by cases h
  | _ :: _, [], _, _, h => by cases h
  | a :: l1, b :: l2, h1, h2, h => by
    rw [List.map_cons, List.map_cons] at h
    have hab : a = b := pyDigitChar_inj a (h1 a (List.mem_cons_self a l1)) b
      (h2 b (List.mem_cons_self b l2)) (List.head_eq_of_cons_eq h)
    have htl : l1 = l2 := map_pyDigitChar_inj l1 l2
      (fun d hd => h1 d (List.mem_cons_of_mem a hd))
      (fun d hd => h2 d (List.mem_cons_of_mem b hd))
      (List.tail_eq_of_cons_eq h)
    rw [hab, htl]

theorem pyNum_data (n : Nat) :
    (pyNum n).data = if n = 0 then ['0'] else ((Nat.digits 10 n).map pyDigitChar).reverse := by
  unfold pyNum
  split
  · rfl
  · next h => rw [string_mk_data, pyNumAux_eq_digits n n (Nat.le_refl n)]

theorem pyNum_inj {a b : Nat} (h : pyNum a = pyNum b) : a = b := by
  have hd := congrArg String.data h
  rw [pyNum_data, pyNum_data] at hd
  have digits_eq : ∀ (x y : Nat), x ≠ 0 → y ≠ 0 →
      ((Nat.digits 10 x).map pyDigitChar).reverse = ((Nat.digits 10 y).map pyDigitChar).reverse →
      x = y := by
    intro x y hx hy hxy
    have := List.reverse_injective hxy
    have hdig := map_pyDigitChar_inj _ _
      (fun d hd => Nat.digits_lt_base (by norm_num) hd)
      (fun d hd => Nat.digits_lt_base (by norm_num) hd) this
    have := congrArg (Nat.ofDigits 10) hdig
    rwa [Nat.ofDigits_digits, Nat.ofDigits_digits] at this
  by_cases ha : a = 0 <;> by_cases hb : b = 0
  · rw [ha, hb]
  · rw [if_pos ha, if_neg hb] at hd
    exfalso
    have h0 : (Nat.digits 10 b).map pyDigitChar = ['0'] := by
      have := congrArg List.reverse hd
      simpa using this.symm
    have : Nat.digits 10 b = [0] := by
      have hlen := congrArg List.length h0
      rw [List.length_map] at hlen
      match hdig : Nat.digits 10 b, hlen' : (Nat.digits 10 b).length with
      | [d], _ =>
        rw [hdig] at h0
        have hd10 : d < 10 := Nat.digits_lt_base (by norm_num) (by rw [hdig]; exact List.mem_singleton.mpr rfl)
        have : pyDigitChar d = '0' := by simpa using h0
        have : d = 0 := pyDigitChar_inj d hd10 0 (by norm_num) (by simpa using this)
        rw [this]
      | [], _ => rw [hdig] at h0; cases h0
      | d :: e :: t, _ => rw [hdig] at h0; simp at h0
    have := congrArg (Nat.ofDigits 10) this
    rw [Nat.ofDigits_digits] at this
    simp [Nat.ofDigits] at this
    exact hb this
  · rw [if_neg ha, if_pos hb] at hd
    exfalso
    have h0 : (Nat.digits 10 a).map pyDigitChar = ['0'] := by
      have := congrArg List.reverse hd
      simpa using this
    have : Nat.digits 10 a = [0] := by
      have hlen := congrArg List.length h0
      rw [List.length_map] at hlen
      match hdig : Nat.digits 10 a, hlen' : (Nat.digits 10 a).length with
      | [d], _ =>
        rw [hdig] at h0
        have hd10 : d < 10 := Nat.digits_lt_base (by norm_num) (by rw [hdig]; exact List.mem_singleton.mpr rfl)
        have : pyDigitChar d = '0' := by simpa using h0
        have : d = 0 := pyDigitChar_inj d hd10 0 (by norm_num) (by simpa using this)
        rw [this]
      | [], _ => rw [hdig] at h0; cases h0
      | d :: e :: t, _ => rw [hdig] at h0; simp at h0
    have := congrArg (Nat.ofDigits 10) this
    rw [Nat.ofDigits_digits] at this
    simp [Nat.ofDigits] at this
    exact ha this
  · rw [if_neg ha, if_neg hb] at hd
    exact digits_eq a b ha hb hd

/-! ## The slug-collision loop -/

theorem slugCand_injective (base : String) : Function.Injective (slugCand base) := by
  intro j k h
  unfold slugCand at h
  have hd := congrArg String.data h
  simp only [String.data_append] at hd
  have : (pyNum j).data = (pyNum k).data := by simpa using hd
  exact pyNum_inj (String.ext this)

theorem findSlug_spec (used : List String) (base : String) :
    ∀ (fuel counter : Nat),
      (∃ j, counter ≤ j ∧ j < counter + fuel ∧ slugCand base j ∉ used) →
      ∃ k, counter ≤ k ∧ findSlug used base counter fuel = slugCand base k ∧
        slugCand base k ∉ used ∧
        ∀ j, counter ≤ j → j < k → slugCand base j ∈ used := by
  intro fuel
  induction fuel with
  | zero =>
    intro counter h
    obtain ⟨j, hj1, hj2, _⟩ := h
    omega
  | succ f ih =>
    intro counter h
    obtain ⟨j, hj1, hj2, hj3⟩ := h
    show ∃ k, _ ∧ (if slugCand base counter ∈ used then findSlug used base (counter + 1) f
      else slugCand base counter) = _ ∧ _ ∧ _
    by_cases hmem : slugCand base counter ∈ used
    · rw [if_pos hmem]
      have hj : counter + 1 ≤ j := by
        rcases Nat.eq_or_lt_of_le hj1 with heq | hlt
        · exact absurd (heq ▸ hmem) hj3
        · omega
      obtain ⟨k, hk1, hk2, hk3, hk4⟩ := ih (counter + 1) ⟨j, hj, by omega, hj3⟩
      refine ⟨k, by omega, hk2, hk3, ?_⟩
      intro j2 h1 h2
      rcases Nat.eq_or_lt_of_le h1 with heq | hlt
      · rw [← heq]; exact hmem
      · exact hk4 j2 (by omega) h2
    · rw [if_neg hmem]
      exact ⟨counter, Nat.le_refl _, rfl, hmem, fun j2 h1 h2 => by omega⟩

theorem exists_free_slugCand (used : List String) (base : String) :
    ∃ j, 2 ≤ j ∧ j < 2 + (used.length + 1) ∧ slugCand base j ∉ used := by
  by_contra hcon
  push_neg at hcon
  set l := (List.range' 2 (used.length + 1)).map (slugCand base) with hl
  have hsub : l ⊆ used := by
    intro x hx
    rw [hl, List.mem_map] at hx
    obtain ⟨j, hj, rfl⟩ := hx
    rw [List.mem_range'] at hj
    obtain ⟨i, hi, rfl⟩ := hj
    exact hcon (2 + 1 * i) (by omega) (by omega)
  have hnodup : l.Nodup := by
    rw [hl]
    exact List.Nodup.map (slugCand_injective base) (List.nodup_range' 2 (used.length + 1))
  have hlen : l.length = used.length + 1 := by
    rw [hl, List.length_map, List.length_range']
  have hle : l.length ≤ used.length := by
    calc l.length = l.toFinset.card := (List.toFinset_card_of_nodup hnodup).symm
    _ ≤ used.toFinset.card := Finset.card_le_card (fun x hx => by
        rw [List.mem_toFinset] at *
        exact hsub hx)
    _ ≤ used.length := List.toFinset_card_le used
  omega

theorem pickSlug_spec (used : List String) (base : String) :
    (base ∉ used ∧ pickSlug used base = base) ∨
    (base ∈ used ∧ ∃ k, 2 ≤ k ∧ pickSlug used base = slugCand base k ∧
      slugCand base k ∉ used ∧ ∀ j, 2 ≤ j → j < k → slugCand base j ∈ used) := by
  unfold pickSlug
  by_cases h : base ∈ used
  · right
    rw [if_pos h]
    obtain ⟨k, hk1, hk2, hk3, hk4⟩ :=
      findSlug_spec used base (used.length + 1) 2 (exists_free_slugCand used base)
    exact ⟨h, k, hk1, hk2, hk3, hk4⟩
  · left
    rw [if_neg h]
    exact ⟨h, rfl⟩

theorem pickSlug_not_mem (used : List String) (base : String) :
    pickSlug used base ∉ used := by
  rcases pickSlug_spec used base with ⟨h1, h2⟩ | ⟨_, k, _, h2, h3, _⟩ <;> rw [h2]
  · exact h1
  · exact h3

/-! ## The record-builder loop -/

theorem buildRecordsAux_length : ∀ (rows : List Row) (index : Nat) (used : List String),
    (buildRecordsAux index used rows).length = rows.length
  | [], _, _ => rfl
  | _ :: rest, index, used => by
    show _ + 1 = _ + 1
    rw [buildRecordsAux_length rest (index + 1) _]

theorem buildRecordsAux_get : ∀ (rows : List Row) (index : Nat) (used : List String) (j : Nat)
    (h : j < rows.length) (h2 : j < (buildRecordsAux index used rows).length),
    (buildRecordsAux index used rows).get ⟨j, h2⟩ =
      mkRecord (index + j)
        ((((buildRecordsAux index used rows).take j).map Restaurant.slug).reverse ++ used)
        (rows.get ⟨j, h⟩)
  | [], _, _, j, h, _ => absurd h (by simp)
  | row :: rest, index, used, 0, h, h2 => by
    simp [buildRecordsAux]
  | row :: rest, index, used, j + 1, h, h2 => by
    have hr : j < rest.length := by
      simpa using Nat.lt_of_succ_lt_succ h
    have hr2 : j < (buildRecordsAux (index + 1)
        ((mkRecord index used row).slug :: used) rest).length := by
      rw [buildRecordsAux_length]
      exact hr
    show (buildRecordsAux (index + 1) ((mkRecord index used row).slug :: used) rest).get ⟨j, _⟩ = _
    rw [buildRecordsAux_get rest (index + 1) _ j hr hr2]
    show mkRecord (index + 1 + j) _ _ = mkRecord (index + (j + 1)) _ _
    congr 1
    · omega
    · show _ = ((((mkRecord index used row ::
          buildRecordsAux (index + 1) _ rest).take (j + 1)).map Restaurant.slug).reverse ++ used)
      rw [List.take_succ_cons, List.map_cons, List.reverse_cons, List.append_assoc]
      rfl

theorem buildRecordsAux_slug_nodup : ∀ (rows : List Row) (index : Nat) (used : List String),
    ((buildRecordsAux index used rows).map Restaurant.slug).Nodup ∧
    ∀ s ∈ (buildRecordsAux index used rows).map Restaurant.slug, s ∉ used
  | [], _, _ => ⟨List.nodup_nil, by intro s hs; cases hs⟩
  | row :: rest, index, used => by
    obtain ⟨ihn, ihm⟩ := buildRecordsAux_slug_nodup rest (index + 1)
      ((mkRecord index used row).slug :: used)
    constructor
    · show ((mkRecord index used row).slug ::
        (buildRecordsAux (index + 1) _ rest).map Restaurant.slug).Nodup
      refine List.Nodup.cons ?_ ihn
      intro hmem
      exact ihm _ hmem (List.mem_cons_self _ _)
    · intro s hs
      rcases List.mem_cons.mp hs with heq | htail
      · rw [heq]
        exact pickSlug_not_mem used (slugify (recordName index row))
      · intro hu
        exact ihm s htail (List.mem_cons_of_mem _ hu)

/-! ## Character-level facts about `slugify` -/

theorem mem_collapseRunsAux : ∀ (l : List Char) (b : Bool) (c : Char),
    c ∈ collapseRunsAux b l → c = '-' ∨ c ∈ l
  | [], _, _, h => absurd h (by simp [collapseRunsAux])
  | a :: rest, b, c, h => by
    by_cases ha : pySpace a ∨ a = '_'
    · rcases b with _ | _
      · simp only [collapseRunsAux, if_pos ha, if_neg (by simp : ¬(false = true))] at h
        rcases List.mem_cons.mp h with heq | htail
        · exact Or.inl heq
        · rcases mem_collapseRunsAux rest true c htail with h1 | h2
          · exact Or.inl h1
          · exact Or.inr (List.mem_cons_of_mem a h2)
      · simp only [collapseRunsAux, if_pos ha, if_pos rfl] at h
        rcases mem_collapseRunsAux rest true c h with h1 | h2
        · exact Or.inl h1
        · exact Or.inr (List.mem_cons_of_mem a h2)
    · simp only [collapseRunsAux, if_neg ha] at h
      rcases List.mem_cons.mp h with heq | htail
      · exact Or.inr (heq ▸ List.mem_cons_self a rest)
      · rcases mem_collapseRunsAux rest false c htail with h1 | h2
        · exact Or.inl h1
        · exact Or.inr (List.mem_cons_of_mem a h2)

theorem restaurant_data_eq :
    ("restaurant" : String).data = ['r', 'e', 's', 't', 'a', 'u', 'r', 'a', 'n', 't'] := rfl

theorem slugify_char_shape (s : String) (c : Char) (hc : c ∈ (slugify s).data) :
    (pyWord c ∨ c = '-') ∧ ¬(0x41 ≤ c.toNat ∧ c.toNat ≤ 0x5A) := by
  unfold slugify at hc
  by_cases hempty :
      ((collapseRuns ((⟨(pyStripList pySpace (nfkd s).data).map pyLowerChar⟩ : String).data)).filter
        (fun c => pyWord c ∨ c = '-')).isEmpty
  · rw [if_pos hempty] at hc
    rw [restaurant_data_eq] at hc
    fin_cases hc <;> refine ⟨by decide, by decide⟩
  · rw [if_neg hempty] at hc
    rw [string_mk_data] at hc
    have hfil := List.mem_filter.mp hc
    refine ⟨by simpa using hfil.2, ?_⟩
    have hcol : c ∈ collapseRuns ((⟨(pyStripList pySpace (nfkd s).data).map pyLowerChar⟩ : String).data) :=
      hfil.1
    rcases mem_collapseRunsAux _ _ _ hcol with hdash | hmem
    · rw [hdash]; decide
    · rw [string_mk_data] at hmem
      obtain ⟨d, _, rfl⟩ := List.mem_map.mp hmem
      exact pyLowerChar_not_upper d

theorem pyWord_not_space (c : Char) (h : pyWord c = true) : pySpace c = false := by
  simp only [pyWord, decide_eq_true_eq] at h
  simp only [pySpace, decide_eq_false_iff_not]
  omega

theorem slugify_no_space (s : String) (c : Char) (hc : c ∈ (slugify s).data) :
    pySpace c = false := by
  rcases (slugify_char_shape s c hc).1 with hw | hd
  · exact pyWord_not_space c hw
  · rw [hd]; decide

theorem slugify_not_upper (s : String) (c : Char) (hc : c ∈ (slugify s).data) :
    ¬(0x41 ≤ c.toNat ∧ c.toNat ≤ 0x5A) :=
  (slugify_char_shape s c hc).2

theorem slugify_ne_empty (s : String) : slugify s ≠ "" := by
  intro heq
  unfold slugify at heq
  by_cases hempty :
      ((collapseRuns ((⟨(pyStripList pySpace (nfkd s).data).map pyLowerChar⟩ : String).data)).filter
        (fun c => pyWord c ∨ c = '-')).isEmpty
  · rw [if_pos hempty] at heq
    exact absurd heq (by decide)
  · rw [if_neg hempty] at heq
    rw [String.ext_iff, string_mk_data] at heq
    rw [List.isEmpty_iff] at hempty
    exact hempty heq

theorem slugify_no_specials (s : String) (c : Char) (hc : c ∈ (slugify s).data) :
    c ≠ '<' ∧ c ≠ '>' ∧ c ≠ '&' := by
  rcases (slugify_char_shape s c hc).1 with hw | hd
  · simp only [pyWord, decide_eq_true_eq] at hw
    refine ⟨?_, ?_, ?_⟩ <;> rintro rfl <;> revert hw <;> decide
  · rw [hd]
    refine ⟨by decide, by decide, by decide⟩

/-! ## `clean_text` against the spec-side normalizer -/

theorem cleanText_eq_cleanSpecFn (s : String) : cleanText s = cleanSpecFn s := by
  unfold cleanText
  by_cases h : pyStrip pySpace s = "" ∨ pyStrip pySpace s = "·"
  · rw [if_pos h]
    have hl : cleanLines s = [] := by
      unfold cleanLines
      rcases h with h1 | h1 <;> rw [h1] <;> decide
    show "" = cleanSpecFn s
    unfold cleanSpecFn
    show "" = match (cleanLines s).getLast? with
      | none => ""
      | some text => if text.length = 1 ∧ 0xE000 < (text.get 0).toNat then "" else text
    rw [hl]
    rfl
  · rw [if_neg h]
    rfl

/-! ## The renderers factor through HTML escaping -/

theorem buildCard_escape_factor (r : Restaurant) :
    buildCard r = buildCardRaw (escapeRecord r) := by
  simp only [buildCard, buildCardRaw, escapeRecord, ne_eq, htmlEscape_eq_empty_iff]

theorem buildDetail_escape_factor (r : Restaurant) :
    buildDetail r = buildDetailRaw (escapeRecord r) := by
  have h1 : htmlEscape "近期評論" = "近期評論" := by decide
  have h2 : htmlEscape "新開店" = "新開店" := by decide
  have h3 : htmlEscape "人氣餐廳" = "人氣餐廳" := by decide
  have h4 : htmlEscape "彈性體驗" = "彈性體驗" := by decide
  have h5 : htmlEscape "../../index.html" = "../../index.html" := by decide
  simp only [buildDetail, buildDetailRaw, escapeRecord, List.map_map, Function.comp_def,
    ne_eq, htmlEscape_eq_empty_iff, List.map_eq_nil_iff, List.map_take,
    apply_ite htmlEscape, pyJoin_map_htmlEscape "、" (by decide),
    h1, h2, h3, h4, h5]

/-! ## The escaper's output has no raw specials -/

theorem entityClean_escChar_append (c : Char) (t : List Char) (ht : entityClean t = true) :
    entityClean (escChar c ++ t) = true := by
  simp only [escChar]
  split_ifs with h1 h2 h3 h4 h5
  · subst h1; simp [entityClean, entityTail, List.isPrefixOf, ht]
  · subst h2; simp [entityClean, entityTail, List.isPrefixOf, ht]
  · subst h3; simp [entityClean, entityTail, List.isPrefixOf, ht]
  · subst h4; simp [entityClean, entityTail, List.isPrefixOf, ht]
  · subst h5; simp [entityClean, entityTail, List.isPrefixOf, ht]
  · show entityClean (c :: t) = true
    simp [entityClean, h1, h2, h3, ht]

theorem entityClean_htmlEscape (s : String) : entityClean (htmlEscape s).data = true := by
  rw [htmlEscape_data]
  induction s.data with
  | nil => rfl
  | cons c rest ih =>
    rw [List.flatMap_cons]
    exact entityClean_escChar_append c _ ih

/-! ## Filesystem lemmas -/

theorem mkdirParents_files (fs : FS) (dir : String) :
    (mkdirParents fs dir).files = fs.files := rfl

theorem writeFile_files (fs : FS) (p v q : String) :
    (writeFile fs p v).files q = if q = p then some v else fs.files q := rfl

theorem copyStyles_files_other (fs : FS) (q : String) (h : q ≠ stylePath) :
    (copyStyles fs).files q = fs.files q := by
  unfold copyStyles
  cases fs.files stylePath with
  | some c => rfl
  | none => simp [h]

theorem copyStyles_files_style (fs : FS) :
    (copyStyles fs).files stylePath =
      match fs.files stylePath with
      | some c => some c
      | none => some styleCSS := by
  unfold copyStyles
  cases h : fs.files stylePath with
  | some c => rw [h]
  | none => simp

theorem detailPath_data_five (s : String) : (detailPath s).data[5]? = some 'r' := by
  show (("docs/restaurants/" ++ s ++ "/index.html").data)[5]? = some 'r'
  simp only [String.data_append]
  rw [List.append_assoc]
  rw [List.getElem?_append_left (by decide : (5:Nat) < ("docs/restaurants/" : String).data.length)]
  decide

theorem detailPath_ne_stylePath (s : String) : detailPath s ≠ stylePath := by
  intro h
  have hd := congrArg (fun t => t.data[5]?) h
  simp only [] at hd
  rw [detailPath_data_five] at hd
  exact absurd hd (by decide)

theorem detailPath_ne_indexPath (s : String) : detailPath s ≠ indexPath := by
  intro h
  have hd := congrArg (fun t => t.data[5]?) h
  simp only [] at hd
  rw [detailPath_data_five] at hd
  exact absurd hd (by decide)

theorem detailFold_files : ∀ (rs : List Restaurant) (fs : FS) (q : String),
    (rs.foldl (fun f r => writeFile f (detailPath r.slug)
        (buildPage (buildDetail r) r.name 2)) fs).files q =
      rs.foldl (fun acc r => if detailPath r.slug = q then
        some (buildPage (buildDetail r) r.name 2) else acc) (fs.files q)
  | [], _, _ => rfl
  | r :: rest, fs, q => by
    rw [List.foldl_cons, List.foldl_cons,
      detailFold_files rest (writeFile fs (detailPath r.slug) (buildPage (buildDetail r) r.name 2)) q,
      writeFile_files]
    by_cases h : detailPath r.slug = q
    · rw [if_pos h, if_pos (h ▸ rfl)]
    · rw [if_neg h, if_neg (fun hq => h hq.symm)]

theorem detailAcc_eq_init (q : String) (hq : ∀ s, detailPath s ≠ q) :
    ∀ (rs : List Restaurant) (init : Option String),
      rs.foldl (fun acc r => if detailPath r.slug = q then
        some (buildPage (buildDetail r) r.name 2) else acc) init = init
  | [], _ => rfl
  | r :: rest, init => by
    rw [List.foldl_cons, if_neg (hq r.slug)]
    exact detailAcc_eq_init q hq rest init

theorem detailAcc_init_irrel (q : String) :
    ∀ (rs : List Restaurant) (init1 init2 : Option String),
      (∃ r ∈ rs, detailPath r.slug = q) →
      rs.foldl (fun acc r => if detailPath r.slug = q then
          some (buildPage (buildDetail r) r.name 2) else acc) init1 =
        rs.foldl (fun acc r => if detailPath r.slug = q then
          some (buildPage (buildDetail r) r.name 2) else acc) init2
  | [], _, _, h => absurd h (by simp)
  | r :: rest, init1, init2, h => by
    rw [List.foldl_cons, List.foldl_cons]
    by_cases hr : detailPath r.slug = q
    · rw [if_pos hr, if_pos hr]
    · rw [if_neg hr, if_neg hr]
      obtain ⟨r2, hr2, hq2⟩ := h
      rcases List.mem_cons.mp hr2 with heq | htail
      · exact absurd (heq ▸ hq2) hr
      · exact detailAcc_init_irrel q rest init1 init2 ⟨r2, htail, hq2⟩

theorem generateSite_files_style (rs : List Restaurant) (fs : FS) :
    (generateSite rs fs).files stylePath =
      match fs.files stylePath with
      | some c => some c
      | none => some styleCSS := by
  unfold generateSite
  rw [copyStyles_files_style, detailFold_files,
    detailAcc_eq_init stylePath detailPath_ne_stylePath, writeFile_files,
    if_neg (by decide : ¬stylePath = indexPath)]
  rfl

theorem generateSite_files_style_isSome (rs : List Restaurant) (fs : FS) :
    ∃ c, (generateSite rs fs).files stylePath = some c := by
  rw [generateSite_files_style]
  cases fs.files stylePath with
  | some c => exact ⟨c, rfl⟩
  | none => exact ⟨styleCSS, rfl⟩

theorem generateSite_files_index (rs : List Restaurant) (fs : FS) :
    (generateSite rs fs).files indexPath =
      some (buildPage
        ("\n      <header class='hero-header'>\n        <h1>餐廳清單</h1>\n        <p>共有 " ++
          pyNum (rs.map buildCard).length ++
          " 間餐廳，每一間都有自己的獨立頁面。</p>\n      </header>\n      <section class='grid'>\n        " ++
          pyJoin "" (rs.map buildCard) ++ "\n      </section>\n    ")
        "餐廳列表" 0) := by
  unfold generateSite
  rw [copyStyles_files_other _ _ (by decide), detailFold_files,
    detailAcc_eq_init indexPath detailPath_ne_indexPath, writeFile_files, if_pos rfl]

theorem generateSite_files_detail_irrel (rs : List Restaurant) (fs1 fs2 : FS)
    (q : String) (hq : ∃ r ∈ rs, detailPath r.slug = q) :
    (generateSite rs fs1).files q = (generateSite rs fs2).files q := by
  have hqs : q ≠ stylePath := by
    obtain ⟨r, _, hr⟩ := hq
    rw [← hr]
    exact detailPath_ne_stylePath r.slug
  unfold generateSite
  rw [copyStyles_files_other _ _ hqs, copyStyles_files_other _ _ hqs,
    detailFold_files, detailFold_files]
  exact detailAcc_init_irrel q rs _ _ hq

/-! ## Substring and character-provenance lemmas for the renderers -/

theorem strInfix_append_right (x y n : String) (h : ∃ A B, x = A ++ n ++ B) :
    ∃ A B, x ++ y = A ++ n ++ B := by
  obtain ⟨A, B, hx⟩ := h
  exact ⟨A, B ++ y, by rw [hx]; simp [String.append_assoc]⟩

theorem detail_rating_block_sub (T0 R C : String) :
    ∃ A B,
      ((((T0 ++ "\n        </div>\n        <div class='summary'>\n          <div class='rating'>⭐ ") ++ R) ++
          " <span class='reviews'>(") ++ C) ++ ")</span></div>\n          <div class='status'>" =
        A ++ ("<div class='rating'>⭐ " ++ R ++ " <span class='reviews'>(" ++ C ++
          ")</span></div>") ++ B := by
  refine ⟨T0 ++ "\n        </div>\n        <div class='summary'>\n          ",
    "\n          <div class='status'>", ?_⟩
  have hs1 : ("\n        </div>\n        <div class='summary'>\n          <div class='rating'>⭐ " : String) =
      "\n        </div>\n        <div class='summary'>\n          " ++ "<div class='rating'>⭐ " := by decide
  have hs2 : (")</span></div>\n          <div class='status'>" : String) =
      ")</span></div>" ++ "\n          <div class='status'>" := by decide
  rw [hs1, hs2]
  simp only [String.append_assoc]

theorem mem_flatMap_escChar : ∀ (l : List Char) (c : Char), c ∈ l.flatMap escChar →
    c ∈ l ∨ c ∈ ['&', 'a', 'm', 'p', ';', 'l', 't', 'g', 'q', 'u', 'o', '#', 'x', '2', '7']
  | [], _, hc => absurd hc (by simp)
  | d :: rest, c, hc => by
    rw [List.flatMap_cons] at hc
    rcases List.mem_append.mp hc with h1 | h2
    · revert h1
      unfold escChar
      split_ifs with hd1 hd2 hd3 hd4 hd5 <;> intro h1
      · right; simp at h1; rcases h1 with rfl | rfl | rfl | rfl | rfl <;> decide
      · right; simp at h1; rcases h1 with rfl | rfl | rfl | rfl <;> decide
      · right; simp at h1; rcases h1 with rfl | rfl | rfl | rfl <;> decide
      · right; simp at h1; rcases h1 with rfl | rfl | rfl | rfl | rfl | rfl <;> decide
      · right; simp at h1; rcases h1 with rfl | rfl | rfl | rfl | rfl | rfl <;> decide
      · left; simp at h1; rw [h1]; exact List.mem_cons_self d rest
    · rcases mem_flatMap_escChar rest c h2 with h3 | h4
      · exact Or.inl (List.mem_cons_of_mem d h3)
      · exact Or.inr h4

theorem star_not_mem_htmlEscape (s : String) (h : '⭐' ∉ s.data) :
    '⭐' ∉ (htmlEscape s).data := by
  intro hc
  rw [htmlEscape_data] at hc
  rcases mem_flatMap_escChar s.data '⭐' hc with h1 | h2
  · exact h h1
  · exact absurd h2 (by decide)

theorem star_not_mem_buildCard (r : Restaurant) (hrat : r.rating = "")
    (h1 : '⭐' ∉ r.slug.data) (h2 : '⭐' ∉ r.name.data) (h3 : '⭐' ∉ r.category.data)
    (h4 : '⭐' ∉ r.price.data) (h5 : '⭐' ∉ r.status.data) (h6 : '⭐' ∉ r.hours.data)
    (h7 : '⭐' ∉ r.address.data) (h8 : '⭐' ∉ r.image_url.data) :
    '⭐' ∉ (buildCard r).data := by
  have e2 := star_not_mem_htmlEscape _ h2
  have e3 := star_not_mem_htmlEscape _ h3
  have e4 := star_not_mem_htmlEscape _ h4
  have e5 := star_not_mem_htmlEscape _ h5
  have e6 := star_not_mem_htmlEscape _ h6
  have e7 := star_not_mem_htmlEscape _ h7
  have e8 := star_not_mem_htmlEscape _ h8
  have lA : '⭐' ∉ ("\n    <article class='card'>\n      <a class='card-link' href='restaurants/" : String).data := by decide
  have lB : '⭐' ∉ ("/'>\n        " : String).data := by decide
  have lC : '⭐' ∉ ("<div class='card-image'><img src='" : String).data := by decide
  have lD : '⭐' ∉ ("' alt='" : String).data := by decide
  have lE : '⭐' ∉ ("'></div>" : String).data := by decide
  have lF : '⭐' ∉ ("<div class='card-image placeholder'>沒有圖片</div>" : String).data := by decide
  have lG : '⭐' ∉ ("\n        <div class='card-body'>\n          <h2>" : String).data := by decide
  have lH : '⭐' ∉ ("</h2>\n          <p class='meta'>\n            " : String).data := by decide
  have lI : '⭐' ∉ ("\n            <span class='category'>" : String).data := by decide
  have lJ : '⭐' ∉ ("</span>\n            " : String).data := by decide
  have lK : '⭐' ∉ ("<span class='price'>" : String).data := by decide
  have lL : '⭐' ∉ ("</span>" : String).data := by decide
  have lM : '⭐' ∉ ("\n          </p>\n          <p class='status'>" : String).data := by decide
  have lN : '⭐' ∉ (" " : String).data := by decide
  have lO : '⭐' ∉ ("</p>\n          <p class='address'>" : String).data := by decide
  have lP : '⭐' ∉ ("</p>\n        </div>\n      </a>\n    </article>\n    " : String).data := by decide
  have lQ : '⭐' ∉ ("" : String).data := by decide
  intro hmem
  simp only [buildCard] at hmem
  split_ifs at hmem with hc1 hc2 hc3 hc4 hc5 hc6 <;>
    first
      | exact absurd hrat (by assumption)
      | (simp only [String.data_append, List.mem_append] at hmem; tauto)

/-! ## The claims -/

/-- C1, as stated, is false on the code: Python's `\w` (Unicode mode)
counts CJK ideographs as word characters, so the final substitution does
not strip them.  `slugify("牛肉麵 Noodle House")` keeps the CJK prefix and
is therefore not an ASCII-only string (`'牛'` is code point 0x725B). -/
theorem c1_counterexample :
    slugify "牛肉麵 Noodle House" = "牛肉麵-noodle-house" ∧
    '牛' ∈ (slugify "牛肉麵 Noodle House").data ∧ 0x7F < '牛'.toNat := by
  refine ⟨by decide, by decide, by decide⟩

/-- C1 (amended): `slugify` NFKD-normalizes, trims, lowercases, collapses
whitespace-or-underscore runs to single hyphens and removes every
remaining character that is not a word character or hyphen, where word
characters follow Python's Unicode `\w` and so include CJK — CJK text is
preserved, not stripped.  `slugify("牛肉麵 Noodle House")` is the
non-empty, lowercase, hyphenated string `"牛肉麵-noodle-house"` (with no
whitespace but not ASCII-only), and `slugify("") = "restaurant"`; in
general the result never contains whitespace, never contains an ASCII
uppercase letter, and is never empty. -/
theorem c1_slugify_amended :
    slugify "" = "restaurant" ∧
    slugify "牛肉麵 Noodle House" = "牛肉麵-noodle-house" ∧
    (∀ (s : String) (c : Char), c ∈ (slugify s).data →
      pySpace c = false ∧ ¬(0x41 ≤ c.toNat ∧ c.toNat ≤ 0x5A)) ∧
    (∀ s : String, slugify s ≠ "") :=
  ⟨by decide, by decide,
    fun s c hc => ⟨slugify_no_space s c hc, slugify_not_upper s c hc⟩,
    slugify_ne_empty⟩

theorem c1_slugify_amended_witness :
    pySpace 'n' = false ∧ ¬(0x41 ≤ 'n'.toNat ∧ 'n'.toNat ≤ 0x5A) :=
  c1_slugify_amended.2.2.1 "牛肉麵 Noodle House" 'n' (by decide)

/-- C2, as stated, is false on the code: each line is stripped only of
spaces and middle dots (`line.strip(" ·")`), not of all surrounding
whitespace, so a tab at the start of the last line survives. -/
theorem c2_counterexample :
    cleanText "a\n\tb" = "\tb" ∧ cleanText "a\n\tb" ≠ "b" :=
  ⟨by decide, by decide⟩

/-- C2 (amended): `clean` first trims the whole value of surrounding
whitespace, splits it into lines, trims each line of surrounding space and
middle-dot characters only (other whitespace such as tabs inside lines is
kept), discards lines that become empty, and returns the last remaining
line — except that a result of exactly one character with code point above
0xE000 yields the empty string; empty input, a lone middle dot, and input
all of whose lines become empty all yield the empty string. -/
theorem c2_clean_amended :
    (∀ s : String, cleanText s = cleanSpecFn s) ∧
    cleanText "" = "" ∧ cleanText "·" = "" ∧ cleanText "  ·  \n ·  " = "" :=
  ⟨cleanText_eq_cleanSpecFn, by decide, by decide, by decide⟩

/-- C9: whenever the last surviving line is a single character whose code
point exceeds 0xE000, `clean` returns the empty string; a lone U+E100
private-use character is suppressed while an ordinary single character is
preserved. -/
theorem c9_clean_private_use :
    (∀ (s t : String), (cleanLines s).getLast? = some t →
      t.length = 1 → 0xE000 < (t.get 0).toNat → cleanText s = "") ∧
    cleanText "" = "" ∧
    cleanText "A" = "A" := by
  refine ⟨?_, by decide, by decide⟩
  intro s t hlast hlen hord
  unfold cleanText
  by_cases h : pyStrip pySpace s = "" ∨ pyStrip pySpace s = "·"
  · rw [if_pos h]
  · rw [if_neg h]
    show (match (cleanLines s).getLast? with
      | none => ""
      | some text =>
        if text.length = 1 ∧ 0xE000 < (text.get 0).toNat then "" else text) = ""
    rw [hlast]
    show (if t.length = 1 ∧ 0xE000 < (t.get 0).toNat then "" else t) = ""
    rw [if_pos ⟨hlen, hord⟩]

theorem c9_clean_private_use_witness :
    cleanText "" = "" ∧ cleanText "A" = "A" :=
  ⟨c9_clean_private_use.1 "" "" (by decide) (by decide) (by decide),
    c9_clean_private_use.2.2⟩

/-- C7: a row whose cleaned name cell is empty gets the fallback name
`"餐廳 {i}"` with `i` its 1-based position. -/
theorem c7_name_fallback :
    ∀ (rows : List Row) (i : Nat) (h : i < rows.length)
      (h2 : i < (buildRecords rows).length),
      cleanText (rowGet (rows.get ⟨i, h⟩) "qBF1Pd") = "" →
      ((buildRecords rows).get ⟨i, h2⟩).name = "餐廳 " ++ pyNum (i + 1) := by
  intro rows i h h2 hempty
  unfold buildRecords at h2 ⊢
  rw [buildRecordsAux_get rows 0 [] i h h2]
  show (mkRecord (0 + i) _ _).name = _
  rw [List.get_eq_getElem] at hempty
  simp [mkRecord, recordName, hempty]

theorem c7_name_fallback_witness :
    ((buildRecords [([] : Row)]).get ⟨0, by decide⟩).name = "餐廳 " ++ pyNum 1 ∧
    "餐廳 " ++ pyNum 1 = "餐廳 1" :=
  ⟨c7_name_fallback [([] : Row)] 0 (by decide) (by decide) (by decide), by decide⟩

/-- C8: the record's review count is the cleaned cell with parenthesis
characters stripped from both ends; `"(128)"` normalizes to `"128"`. -/
theorem c8_review_count :
    (∀ (rows : List Row) (i : Nat) (h : i < rows.length)
      (h2 : i < (buildRecords rows).length),
      ((buildRecords rows).get ⟨i, h2⟩).review_count =
        pyStrip parenChar (cleanText (rowGet (rows.get ⟨i, h⟩) "UY7F9"))) ∧
    cleanText "(128)" = "(128)" ∧ pyStrip parenChar "(128)" = "128" := by
  refine ⟨?_, by decide, by decide⟩
  intro rows i h h2
  unfold buildRecords at h2 ⊢
  rw [buildRecordsAux_get rows 0 [] i h h2]
  show (mkRecord (0 + i) _ _).review_count = _
  rw [List.get_eq_getElem]
  simp only [mkRecord]
  split_ifs with hrc
  · rfl
  · push_neg at hrc
    rw [hrc]
    decide

theorem c8_review_count_witness :
    ((buildRecords [[("UY7F9", "(128)")]]).get ⟨0, by decide⟩).review_count = "128" :=
  (c8_review_count.1 [[("UY7F9", "(128)")]] 0 (by decide) (by decide)).trans (by decide)

/-- C4: within one run the builder's slugs are pairwise distinct; a record
whose base slug is free receives it, and otherwise receives the base with
the first available numeric suffix ≥ 2, every assigned slug being reserved
against later records; three records named "Cafe" get `cafe`, `cafe-2`,
`cafe-3`. -/
theorem c4_slug_assignment :
    ∀ rows : List Row,
      (((buildRecords rows).map Restaurant.slug).Nodup) ∧
      (∀ (i : Nat) (h : i < rows.length) (h2 : i < (buildRecords rows).length),
        (slugify (recordName i (rows.get ⟨i, h⟩)) ∉
            (((buildRecords rows).take i).map Restaurant.slug) ∧
          ((buildRecords rows).get ⟨i, h2⟩).slug =
            slugify (recordName i (rows.get ⟨i, h⟩))) ∨
        (slugify (recordName i (rows.get ⟨i, h⟩)) ∈
            (((buildRecords rows).take i).map Restaurant.slug) ∧
          ∃ k, 2 ≤ k ∧
            ((buildRecords rows).get ⟨i, h2⟩).slug =
              slugCand (slugify (recordName i (rows.get ⟨i, h⟩))) k ∧
            slugCand (slugify (recordName i (rows.get ⟨i, h⟩))) k ∉
              (((buildRecords rows).take i).map Restaurant.slug) ∧
            ∀ j, 2 ≤ j → j < k →
              slugCand (slugify (recordName i (rows.get ⟨i, h⟩))) j ∈
                (((buildRecords rows).take i).map Restaurant.slug))) ∧
      ((buildRecords [[("qBF1Pd", "Cafe")], [("qBF1Pd", "Cafe")], [("qBF1Pd", "Cafe")]]).map
          Restaurant.slug = ["cafe", "cafe-2", "cafe-3"]) := by
  intro rows
  refine ⟨(buildRecordsAux_slug_nodup rows 0 []).1, ?_, by decide⟩
  intro i h h2
  unfold buildRecords at h2 ⊢
  rw [buildRecordsAux_get rows 0 [] i h h2]
  have hmem : ∀ x : String,
      (x ∈ (((buildRecordsAux 0 [] rows).take i).map Restaurant.slug).reverse ++ []) ↔
      (x ∈ ((buildRecordsAux 0 [] rows).take i).map Restaurant.slug) := by
    intro x
    rw [List.append_nil, List.mem_reverse]
  simp only [Nat.zero_add]
  have hslug : (mkRecord i
      ((((buildRecordsAux 0 [] rows).take i).map Restaurant.slug).reverse ++ [])
      (rows.get ⟨i, h⟩)).slug =
      pickSlug ((((buildRecordsAux 0 [] rows).take i).map Restaurant.slug).reverse ++ [])
        (slugify (recordName i (rows.get ⟨i, h⟩))) := rfl
  rw [hslug]
  rcases pickSlug_spec
      ((((buildRecordsAux 0 [] rows).take i).map Restaurant.slug).reverse ++ [])
      (slugify (recordName i (rows.get ⟨i, h⟩))) with
    ⟨hnm, heq⟩ | ⟨hm, k, hk1, hk2, hk3, hk4⟩
  · exact Or.inl ⟨fun hx => hnm ((hmem _).mpr hx), heq⟩
  · exact Or.inr ⟨(hmem _).mp hm, k, hk1, hk2,
      fun hx => hk3 ((hmem _).mpr hx), fun j hj1 hj2 => (hmem _).mp (hk4 j hj1 hj2)⟩

theorem c4_slug_assignment_witness :
    (slugify (recordName 1 (([[("qBF1Pd", "Cafe")], [("qBF1Pd", "Cafe")], [("qBF1Pd", "Cafe")]] : List Row).get ⟨1, by decide⟩)) ∉ (((buildRecords [[("qBF1Pd", "Cafe")], [("qBF1Pd", "Cafe")], [("qBF1Pd", "Cafe")]]).take 1).map Restaurant.slug) ∧
      ((buildRecords [[("qBF1Pd", "Cafe")], [("qBF1Pd", "Cafe")], [("qBF1Pd", "Cafe")]]).get ⟨1, by decide⟩).slug = slugify (recordName 1 (([[("qBF1Pd", "Cafe")], [("qBF1Pd", "Cafe")], [("qBF1Pd", "Cafe")]] : List Row).get ⟨1, by decide⟩))) ∨
    (slugify (recordName 1 (([[("qBF1Pd", "Cafe")], [("qBF1Pd", "Cafe")], [("qBF1Pd", "Cafe")]] : List Row).get ⟨1, by decide⟩)) ∈ (((buildRecords [[("qBF1Pd", "Cafe")], [("qBF1Pd", "Cafe")], [("qBF1Pd", "Cafe")]]).take 1).map Restaurant.slug) ∧
      ∃ k, 2 ≤ k ∧
        ((buildRecords [[("qBF1Pd", "Cafe")], [("qBF1Pd", "Cafe")], [("qBF1Pd", "Cafe")]]).get ⟨1, by decide⟩).slug = slugCand (slugify (recordName 1 (([[("qBF1Pd", "Cafe")], [("qBF1Pd", "Cafe")], [("qBF1Pd", "Cafe")]] : List Row).get ⟨1, by decide⟩))) k ∧
        slugCand (slugify (recordName 1 (([[("qBF1Pd", "Cafe")], [("qBF1Pd", "Cafe")], [("qBF1Pd", "Cafe")]] : List Row).get ⟨1, by decide⟩))) k ∉ (((buildRecords [[("qBF1Pd", "Cafe")], [("qBF1Pd", "Cafe")], [("qBF1Pd", "Cafe")]]).take 1).map Restaurant.slug) ∧
        ∀ j, 2 ≤ j → j < k → slugCand (slugify (recordName 1 (([[("qBF1Pd", "Cafe")], [("qBF1Pd", "Cafe")], [("qBF1Pd", "Cafe")]] : List Row).get ⟨1, by decide⟩))) j ∈ (((buildRecords [[("qBF1Pd", "Cafe")], [("qBF1Pd", "Cafe")], [("qBF1Pd", "Cafe")]]).take 1).map Restaurant.slug)) :=
  (c4_slug_assignment [[("qBF1Pd", "Cafe")], [("qBF1Pd", "Cafe")], [("qBF1Pd", "Cafe")]]).2.1 1 (by decide) (by decide)

set_option maxRecDepth 10000 in
/-- C3, as stated, is false on the code: the slug is a record field that
`build_card` interpolates without escaping, so a record whose slug contains
`&` produces a card with a raw ampersand (exactly one `&`, and no `&amp;`
entity anywhere in the fragment); the same record with the `&` removed
from its slug produces none. -/
theorem c3_counterexample :
    ((buildCard
        { slug := "x&y", name := "", map_url := "", rating := "",
          review_count := "", category := "", address := "", status := "",
          hours := "", image_url := "" }).data.count '&') = 1 ∧
    hasSub "&amp;".data
      (buildCard
        { slug := "x&y", name := "", map_url := "", rating := "",
          review_count := "", category := "", address := "", status := "",
          hours := "", image_url := "" }).data = false ∧
    ((buildCard
        { slug := "xy", name := "", map_url := "", rating := "",
          review_count := "", category := "", address := "", status := "",
          hours := "", image_url := "" }).data.count '&') = 0 := by
  refine ⟨by decide, by decide, by decide⟩

/-- C3 (amended): every interpolated record value except the slug is
HTML-escaped at the point of interpolation — `build_detail` and
`build_card` each coincide with their verbatim template applied to the
record with all text fields escaped, the slug untouched; escaped text
contains no raw `<` or `>` and every `&` in it begins an entity; and a
slug produced by `slugify` never contains `<`, `>` or `&`, so the raw slug
interpolation cannot introduce raw specials for builder-produced
records. -/
theorem c3_escaping_amended :
    ∀ (r : Restaurant) (s t : String),
      buildDetail r = buildDetailRaw (escapeRecord r) ∧
      buildCard r = buildCardRaw (escapeRecord r) ∧
      entityClean (htmlEscape s).data = true ∧
      ('<' ∉ (slugify t).data ∧ '>' ∉ (slugify t).data ∧ '&' ∉ (slugify t).data) :=
  fun r s t =>
    ⟨buildDetail_escape_factor r, buildCard_escape_factor r, entityClean_htmlEscape s,
      ⟨fun hc => (slugify_no_specials t '<' hc).1 rfl,
        fun hc => (slugify_no_specials t '>' hc).2.1 rfl,
        fun hc => (slugify_no_specials t '&' hc).2.2 rfl⟩⟩

/-- C10: the detail page always emits the header-summary rating element
`⭐ {rating} ({review_count})` — even when both fields are empty, producing
a star with empty parentheses — whereas the index card omits its rating
block entirely when the rating is empty: the card's output then does not
depend on the review count, and contains no `⭐` at all whenever no field
itself carries one. -/
theorem c10_rating_blocks :
    ∀ r : Restaurant,
      (∃ A B, buildDetail r =
        A ++ ("<div class='rating'>⭐ " ++ htmlEscape r.rating ++
          " <span class='reviews'>(" ++ htmlEscape r.review_count ++ ")</span></div>") ++ B) ∧
      (r.rating = "" → r.review_count = "" →
        ∃ A B, buildDetail r =
          A ++ "<div class='rating'>⭐  <span class='reviews'>()</span></div>" ++ B) ∧
      (r.rating = "" → ∀ s, buildCard r = buildCard { r with review_count := s }) ∧
      (r.rating = "" → '⭐' ∉ r.slug.data → '⭐' ∉ r.name.data → '⭐' ∉ r.category.data →
        '⭐' ∉ r.price.data → '⭐' ∉ r.status.data → '⭐' ∉ r.hours.data →
        '⭐' ∉ r.address.data → '⭐' ∉ r.image_url.data → '⭐' ∉ (buildCard r).data) := by
  intro r
  have hmain : ∃ A B, buildDetail r =
      A ++ ("<div class='rating'>⭐ " ++ htmlEscape r.rating ++
        " <span class='reviews'>(" ++ htmlEscape r.review_count ++ ")</span></div>") ++ B := by
    simp only [buildDetail]
    apply strInfix_append_right
    apply strInfix_append_right
    apply strInfix_append_right
    apply strInfix_append_right
    apply strInfix_append_right
    apply strInfix_append_right
    apply strInfix_append_right
    apply strInfix_append_right
    apply strInfix_append_right
    apply strInfix_append_right
    apply strInfix_append_right
    apply strInfix_append_right
    apply strInfix_append_right
    apply strInfix_append_right
    exact detail_rating_block_sub _ _ _
  refine ⟨hmain, ?_, ?_, star_not_mem_buildCard r⟩
  · intro h1 h2
    obtain ⟨A, B, hAB⟩ := hmain
    refine ⟨A, B, ?_⟩
    rw [hAB, h1, h2]
    have hlit : ("<div class='rating'>⭐ " ++ htmlEscape "" ++
        " <span class='reviews'>(" ++ htmlEscape "" ++ ")</span></div>") =
        "<div class='rating'>⭐  <span class='reviews'>()</span></div>" := by decide
    rw [hlit]
  · intro h1 s
    simp [buildCard, h1]

theorem c10_rating_blocks_witness :
    (∃ A B, buildDetail
        { slug := "", name := "", map_url := "", rating := "",
          review_count := "", category := "", address := "", status := "",
          hours := "", image_url := "" } =
      A ++ "<div class='rating'>⭐  <span class='reviews'>()</span></div>" ++ B) ∧
    '⭐' ∉ (buildCard
        { slug := "", name := "", map_url := "", rating := "",
          review_count := "", category := "", address := "", status := "",
          hours := "", image_url := "" }).data := by
  obtain ⟨h1, h2, h3, h4⟩ := c10_rating_blocks
    { slug := "", name := "", map_url := "", rating := "",
      review_count := "", category := "", address := "", status := "",
      hours := "", image_url := "" }
  exact ⟨h2 rfl rfl, h4 rfl (by decide) (by decide) (by decide) (by decide)
    (by decide) (by decide) (by decide) (by decide)⟩

/-- C5: when the input CSV is missing, the run fails with an error message
that names the expected input path, and the filesystem is returned exactly
as it was — no output file or directory has been written. -/
theorem c5_missing_input :
    ∀ fs : FS, fs.files csvPath = none →
      (mainRun fs).1 = fs ∧
      ∃ pre post, (mainRun fs).2 = Except.error (pre ++ csvPath ++ post) := by
  intro fs h
  unfold mainRun readRestaurants
  rw [h]
  refine ⟨rfl, "Unable to find data file at ", "", ?_⟩
  rw [String.append_empty]

theorem c5_missing_input_witness :
    (mainRun ⟨fun _ => none, fun _ => false⟩).1 = ⟨fun _ => none, fun _ => false⟩ ∧
    ∃ pre post, (mainRun ⟨fun _ => none, fun _ => false⟩).2 =
      Except.error (pre ++ csvPath ++ post) :=
  c5_missing_input ⟨fun _ => none, fun _ => false⟩ rfl

/-- C6: the stylesheet is written only when absent — a pre-existing
`assets/style.css` survives a run byte-for-byte — and re-running the
generator on its own output reproduces the stylesheet, the index page and
every record's detail page unchanged. -/
theorem c6_stylesheet_idempotent :
    ∀ (fs : FS) (rs : List Restaurant),
      (∀ c, fs.files stylePath = some c →
        (generateSite rs fs).files stylePath = some c) ∧
      ((generateSite rs (generateSite rs fs)).files stylePath =
        (generateSite rs fs).files stylePath) ∧
      ((generateSite rs (generateSite rs fs)).files indexPath =
        (generateSite rs fs).files indexPath) ∧
      (∀ r ∈ rs, (generateSite rs (generateSite rs fs)).files (detailPath r.slug) =
        (generateSite rs fs).files (detailPath r.slug)) := by
  intro fs rs
  refine ⟨?_, ?_, ?_, ?_⟩
  · intro c hc
    rw [generateSite_files_style, hc]
  · rw [generateSite_files_style rs (generateSite rs fs)]
    obtain ⟨c, hc⟩ := generateSite_files_style_isSome rs fs
    rw [hc]
  · rw [generateSite_files_index, generateSite_files_index]
  · intro r hr
    exact generateSite_files_detail_irrel rs _ _ _ ⟨r, hr, rfl⟩

theorem c6_stylesheet_idempotent_witness :
    (generateSite [] ⟨fun q => if q = stylePath then some "custom" else none,
      fun _ => false⟩).files stylePath = some "custom" ∧
    ((generateSite []
        (generateSite [] ⟨fun q => if q = stylePath then some "custom" else none,
          fun _ => false⟩)).files indexPath =
      (generateSite [] ⟨fun q => if q = stylePath then some "custom" else none,
        fun _ => false⟩).files indexPath) := by
  obtain ⟨h1, h2, h3, h4⟩ := c6_stylesheet_idempotent
    ⟨fun q => if q = stylePath then some "custom" else none, fun _ => false⟩ []
  exact ⟨h1 "custom" (by simp), h3⟩
